import Mathlib

/-!
# Verification of the Scam Dunk AI risk-scoring engine

Shallow embedding of the core risk-scoring code of the repository
(`packages/ai/app`): the ensemble scorer, the regex pattern matcher, the
scan-queue retry logic and the model simulators.  Python floats are
modelled as rationals (`ℚ`), Python dicts as association lists, and the
global numpy RNG as an explicit stream of draws.
-/

namespace ScamDunk

/-- Embeds `ModelPrediction` from `app/scoring/ensemble_scorer.py`
(only the fields the scoring algorithms read). -/
structure ModelPrediction where
  model_name : String
  score : ℚ
  confidence : ℚ
deriving DecidableEq, Repr

/-- Embeds `Settings.ENSEMBLE_WEIGHTS` from `app/core/config.py`:
`{"bert": 0.4, "pattern": 0.3, "sentiment": 0.15, "ner": 0.15}`. -/
def ensembleWeights : List (String × ℚ) :=
  [("bert", 2/5), ("pattern", 3/10), ("sentiment", 3/20), ("ner", 3/20)]

/-- Embeds `self.model_weights.get(pred.model_name, 0.1)` in
`EnsembleScorer._calculate_ensemble_score`. -/
def weightOf (weights : List (String × ℚ)) (name : String) : ℚ :=
  match weights.lookup name with
  | some w => w
  | none => 1/10

/-- Embeds `EnsembleScorer._determine_risk_level` with the thresholds of
`EnsembleScorer.__init__` (`critical: 0.9, high: 0.7, medium: 0.5, low: 0.3`). -/
def determineRiskLevel (score : ℚ) : String :=
  if 9/10 ≤ score then "critical"
  else if 7/10 ≤ score then "high"
  else if 1/2 ≤ score then "medium"
  else if 3/10 ≤ score then "low"
  else "minimal"

/-- `np.mean` on a list of rationals. -/
def listMean (l : List ℚ) : ℚ := l.sum / l.length

/-- `np.var` (population variance) on a list of rationals. -/
def listVariance (l : List ℚ) : ℚ :=
  ((l.map (fun x => (x - listMean l) ^ 2)).sum) / l.length

/-- Embeds `EnsembleScorer._calculate_ensemble_score`: the accumulation loop
over predictions (`total_weighted_score`, `total_weight`), the weighted /
fallback final score, and the disagreement-discounted confidence.
Returns `(final_score, ensemble_confidence)`. -/
def calculateEnsembleScore (weights : List (String × ℚ))
    (preds : List ModelPrediction) : ℚ × ℚ :=
  if preds.isEmpty then (0, 0)
  else
    let acc := preds.foldl
      (fun (a : ℚ × ℚ) p =>
        let effectiveWeight := weightOf weights p.model_name * p.confidence
        (a.1 + p.score * effectiveWeight, a.2 + effectiveWeight)) (0, 0)
    let confs := preds.map (·.confidence)
    let finalScore :=
      if 0 < acc.2 then acc.1 / acc.2 else listMean (preds.map (·.score))
    let avgConf := listMean confs
    let confVar := if 1 < confs.length then listVariance confs else 0
    let penalty := min (3/10) (confVar * 2)
    (finalScore, max (1/10) (avgConf - penalty))

end ScamDunk

namespace ScamDunk

/-- **C1**: `risk_tier` is the deterministic step function of `final_score`
over the fixed thresholds: `critical` iff score ≥ 0.9, `high` iff
0.7 ≤ score < 0.9, `medium` iff 0.5 ≤ score < 0.7, `low` iff
0.3 ≤ score < 0.5, `minimal` iff score < 0.3; in particular 0.70 maps to
`high` and 0.6999 maps to `medium`. -/
theorem risk_tier_step_function :
    (∀ score : ℚ,
      (determineRiskLevel score = "critical" ↔ 9/10 ≤ score) ∧
      (determineRiskLevel score = "high" ↔ 7/10 ≤ score ∧ score < 9/10) ∧
      (determineRiskLevel score = "medium" ↔ 1/2 ≤ score ∧ score < 7/10) ∧
      (determineRiskLevel score = "low" ↔ 3/10 ≤ score ∧ score < 1/2) ∧
      (determineRiskLevel score = "minimal" ↔ score < 3/10)) ∧
    determineRiskLevel (7/10) = "high" ∧
    determineRiskLevel (6999/10000) = "medium" := by
  refine ⟨fun score => ?_, by norm_num [determineRiskLevel], by norm_num [determineRiskLevel]⟩
  unfold determineRiskLevel
  split_ifs with h1 h2 h3 h4 <;>
    refine ⟨?_, ?_, ?_, ?_, ?_⟩ <;>
    constructor <;> intro h <;>
    first
      | rfl
      | linarith
      | (exact ⟨by linarith, by linarith⟩)
      | (exact absurd h (by decide))

/-- The effective weight `model_weight * pred.confidence` of one prediction. -/
def effWeight (weights : List (String × ℚ)) (p : ModelPrediction) : ℚ :=
  weightOf weights p.model_name * p.confidence

/-- The accumulation loop of `_calculate_ensemble_score` computes the sums
`Σ score_i·weight_i·confidence_i` and `Σ weight_i·confidence_i`. -/
theorem ensembleFoldl_eq (weights : List (String × ℚ))
    (preds : List ModelPrediction) (a : ℚ × ℚ) :
    preds.foldl
      (fun (a : ℚ × ℚ) p =>
        let effectiveWeight := weightOf weights p.model_name * p.confidence
        (a.1 + p.score * effectiveWeight, a.2 + effectiveWeight)) a
    = (a.1 + (preds.map (fun p => p.score * effWeight weights p)).sum,
       a.2 + (preds.map (effWeight weights)).sum) := by
  induction preds generalizing a with
  | nil => simp
  | cons p ps ih =>
    simp only [List.foldl_cons, List.map_cons, List.sum_cons, ih, effWeight]
    refine Prod.ext ?_ ?_ <;> simp <;> ring

/-- **C2**: for every non-empty prediction list, `final_score` is the
confidence-weighted mean `Σ(score·weight·confidence)/Σ(weight·confidence)`
with per-source weights (default `0.1` for unknown sources), falling back
to the unweighted mean of the scores when the total effective weight is
not positive (in particular when all confidences are zero). -/
theorem ensemble_final_score_formula (weights : List (String × ℚ))
    (preds : List ModelPrediction) (h : preds ≠ []) :
    (calculateEnsembleScore weights preds).1 =
      if 0 < (preds.map (effWeight weights)).sum then
        (preds.map (fun p => p.score * effWeight weights p)).sum
          / (preds.map (effWeight weights)).sum
      else (preds.map (·.score)).sum / preds.length := by
  unfold calculateEnsembleScore
  rw [if_neg (by simpa using h)]
  simp only [ensembleFoldl_eq, zero_add, listMean, List.length_map]

/-- Witness for `ensemble_final_score_formula` at a concrete prediction list. -/
theorem ensemble_final_score_formula_witness :
    ([⟨"bert", 1/2, 1⟩] : List ModelPrediction) ≠ [] ∧
    (calculateEnsembleScore ensembleWeights [⟨"bert", 1/2, 1⟩]).1 =
      if 0 < (([⟨"bert", 1/2, 1⟩] : List ModelPrediction).map
          (effWeight ensembleWeights)).sum then
        (([⟨"bert", 1/2, 1⟩] : List ModelPrediction).map
            (fun p => p.score * effWeight ensembleWeights p)).sum
          / (([⟨"bert", 1/2, 1⟩] : List ModelPrediction).map
              (effWeight ensembleWeights)).sum
      else (([⟨"bert", 1/2, 1⟩] : List ModelPrediction).map (·.score)).sum
          / ([⟨"bert", 1/2, 1⟩] : List ModelPrediction).length :=
  ⟨by simp, ensemble_final_score_formula ensembleWeights _ (by simp)⟩

/-- **C3**: increasing one prediction's score while keeping its source name,
its confidence, and every other prediction fixed never decreases the
ensemble `final_score`, provided the changed prediction's configured weight
and confidence are nonnegative (weighted-mean monotonicity). -/
theorem ensemble_score_monotone (weights : List (String × ℚ))
    (pre post : List ModelPrediction) (p p' : ModelPrediction)
    (hname : p'.model_name = p.model_name)
    (hconf : p'.confidence = p.confidence)
    (hscore : p.score ≤ p'.score)
    (hw : 0 ≤ weightOf weights p.model_name)
    (hc : 0 ≤ p.confidence) :
    (calculateEnsembleScore weights (pre ++ p :: post)).1 ≤
      (calculateEnsembleScore weights (pre ++ p' :: post)).1 := by
  have hew : effWeight weights p' = effWeight weights p := by
    simp [effWeight, hname, hconf]
  have hne : (pre ++ p :: post) ≠ [] := by simp
  have hne' : (pre ++ p' :: post) ≠ [] := by simp
  rw [ensemble_final_score_formula weights _ hne,
    ensemble_final_score_formula weights _ hne']
  have hsums : ((pre ++ p' :: post).map (effWeight weights)).sum
      = ((pre ++ p :: post).map (effWeight weights)).sum := by
    simp [hew]
  rw [hsums]
  split_ifs with hpos
  · have hkey : p.score * effWeight weights p ≤ p'.score * effWeight weights p :=
      mul_le_mul_of_nonneg_right hscore (mul_nonneg hw hc)
    apply div_le_div_of_nonneg_right ?_ hpos.le
    simp only [List.map_append, List.map_cons, List.sum_append, List.sum_cons, hew]
    linarith
  · have hlen : ((pre ++ p' :: post).length : ℚ) = ((pre ++ p :: post).length : ℚ) := by
      simp
    rw [hlen]
    have hlenpos : (0 : ℚ) < ((pre ++ p :: post).length : ℚ) := by
      have : 0 < (pre ++ p :: post).length := by simp
      exact_mod_cast this
    apply div_le_div_of_nonneg_right ?_ hlenpos.le
    simp only [List.map_append, List.map_cons, List.sum_append, List.sum_cons]
    linarith

/-- Witness for `ensemble_score_monotone` at concrete predictions. -/
theorem ensemble_score_monotone_witness :
    (⟨"pattern", 3/4, 1/2⟩ : ModelPrediction).model_name = (⟨"pattern", 1/4, 1/2⟩ : ModelPrediction).model_name ∧
    (⟨"pattern", 3/4, 1/2⟩ : ModelPrediction).confidence = (⟨"pattern", 1/4, 1/2⟩ : ModelPrediction).confidence ∧
    (⟨"pattern", 1/4, 1/2⟩ : ModelPrediction).score ≤ (⟨"pattern", 3/4, 1/2⟩ : ModelPrediction).score ∧
    (calculateEnsembleScore ensembleWeights
        ([⟨"bert", 1/2, 1⟩] ++ (⟨"pattern", 1/4, 1/2⟩ : ModelPrediction) :: [])).1 ≤
      (calculateEnsembleScore ensembleWeights
        ([⟨"bert", 1/2, 1⟩] ++ (⟨"pattern", 3/4, 1/2⟩ : ModelPrediction) :: [])).1 :=
  ⟨rfl, rfl, by norm_num,
    ensemble_score_monotone ensembleWeights [⟨"bert", 1/2, 1⟩] []
      ⟨"pattern", 1/4, 1/2⟩ ⟨"pattern", 3/4, 1/2⟩ rfl rfl (by norm_num)
      (by rw [show weightOf ensembleWeights "pattern" = 3/10 from rfl]; norm_num) (by norm_num)⟩

/-- **C4**: for every non-empty prediction list the ensemble confidence is
`max(0.1, mean(confidence) − min(0.3, 2·variance(confidence)))`, and —
holding the mean of the input confidences fixed — it never increases when
their variance increases. -/
theorem ensemble_confidence_spec (weights : List (String × ℚ))
    (preds : List ModelPrediction) (h : preds ≠ []) :
    (calculateEnsembleScore weights preds).2 =
      max (1/10) (listMean (preds.map (·.confidence)) -
        min (3/10) (2 * listVariance (preds.map (·.confidence)))) ∧
    (∀ (weights' : List (String × ℚ)) (preds' : List ModelPrediction),
      preds' ≠ [] →
      listMean (preds'.map (·.confidence)) = listMean (preds.map (·.confidence)) →
      listVariance (preds.map (·.confidence)) ≤ listVariance (preds'.map (·.confidence)) →
      (calculateEnsembleScore weights' preds').2 ≤ (calculateEnsembleScore weights preds).2) := by
  have key : ∀ (w : List (String × ℚ)) (l : List ModelPrediction), l ≠ [] →
      (calculateEnsembleScore w l).2 =
        max (1/10) (listMean (l.map (·.confidence)) -
          min (3/10) (2 * listVariance (l.map (·.confidence)))) := by
    intro w l hl
    unfold calculateEnsembleScore
    rw [if_neg (by simpa using hl)]
    simp only
    rcases l with _ | ⟨p, ps⟩
    · exact absurd rfl hl
    rcases ps with _ | ⟨q, qs⟩
    · simp [listVariance, listMean, mul_comm]
    · have hlen : 1 < ((p :: q :: qs).map (·.confidence)).length := by
        simp [List.length_map]
      rw [if_pos hlen]
      ring_nf
  refine ⟨key weights preds h, fun weights' preds' h' hmean hvar => ?_⟩
  rw [key weights preds h, key weights' preds' h', hmean]
  have hmin : min (3/10 : ℚ) (2 * listVariance (preds.map (·.confidence)))
      ≤ min (3/10) (2 * listVariance (preds'.map (·.confidence))) :=
    min_le_min le_rfl (by linarith)
  have := sub_le_sub_left hmin (listMean (preds.map (·.confidence)))
  exact max_le_max le_rfl (by linarith)

/-- Witness for `ensemble_confidence_spec` at a concrete prediction list. -/
theorem ensemble_confidence_spec_witness :
    ([⟨"bert", 1/2, 1⟩, ⟨"pattern", 1/4, 1/2⟩] : List ModelPrediction) ≠ [] ∧
    (calculateEnsembleScore ensembleWeights
        [⟨"bert", 1/2, 1⟩, ⟨"pattern", 1/4, 1/2⟩]).2 =
      max (1/10) (listMean (([⟨"bert", 1/2, 1⟩, ⟨"pattern", 1/4, 1/2⟩] :
            List ModelPrediction).map (·.confidence)) -
        min (3/10) (2 * listVariance (([⟨"bert", 1/2, 1⟩, ⟨"pattern", 1/4, 1/2⟩] :
            List ModelPrediction).map (·.confidence)))) :=
  ⟨by simp, (ensemble_confidence_spec ensembleWeights _ (by simp)).1⟩

/-- Python `dict.update` on insertion-ordered association lists with unique
keys: keys already present keep their position and receive the new value,
keys not yet present are appended in iteration order. -/
def dictUpdate (old new : List (String × ℚ)) : List (String × ℚ) :=
  old.map (fun kv => (kv.1, (new.lookup kv.1).getD kv.2)) ++
    new.filter (fun kv => (old.lookup kv.1).isNone)

/-- Embeds `EnsembleScorer.update_weights`: validates that every supplied
weight lies in `[0, 1]` and that their total is positive, divides each
supplied weight by the total, and merges the result into the stored weights
with `dict.update` semantics.  `some` is the stored-weight state after a
`True` return; `none` models a `False` return (state unchanged). -/
def updateWeights (current newW : List (String × ℚ)) :
    Option (List (String × ℚ)) :=
  if newW.all (fun kv => decide (0 ≤ kv.2) && decide (kv.2 ≤ 1)) then
    let total := (newW.map Prod.snd).sum
    if 0 < total then
      some (dictUpdate current (newW.map (fun kv => (kv.1, kv.2 / total))))
    else none
  else none

/-- **C5 counterexample**: updating only the `bert` weight to `0.5` succeeds
(`update_weights` returns `True`), yet the stored weights afterwards are
`{bert: 1.0, pattern: 0.3, sentiment: 0.15, ner: 0.15}`, which sum to
`1.6 ≠ 1`: `dict.update` only merges the renormalized *supplied* weights,
leaving untouched sources at their old values. -/
theorem update_weights_sum_counterexample :
    updateWeights ensembleWeights [("bert", 1/2)] =
      some [("bert", 1), ("pattern", 3/10), ("sentiment", 3/20), ("ner", 3/20)] ∧
    (([("bert", (1:ℚ)), ("pattern", 3/10), ("sentiment", 3/20),
        ("ner", 3/20)]).map Prod.snd).sum ≠ 1 := by
  refine ⟨?_, by norm_num⟩
  unfold updateWeights
  rw [if_pos (by norm_num), if_pos (by norm_num)]
  simp [dictUpdate, ensembleWeights, List.lookup]

/-- **C5 (amended)**: a successful `update_weights` renormalizes the
*supplied* weights to sum to 1 before merging them into the stored
configuration; when the update supplies a weight for every stored source
(here: all four default sources), the stored weights afterwards sum to 1.
(A partial update leaves the untouched entries at their old values, so the
stored total can then differ from 1 — see the counterexample.) -/
theorem update_weights_full_cover_sums_to_one (b p s n : ℚ)
    (hb0 : 0 ≤ b) (hb1 : b ≤ 1) (hp0 : 0 ≤ p) (hp1 : p ≤ 1)
    (hs0 : 0 ≤ s) (hs1 : s ≤ 1) (hn0 : 0 ≤ n) (hn1 : n ≤ 1)
    (htot : 0 < b + p + s + n) :
    ∃ w', updateWeights ensembleWeights
        [("bert", b), ("pattern", p), ("sentiment", s), ("ner", n)] = some w' ∧
      (w'.map Prod.snd).sum = 1 := by
  unfold updateWeights
  rw [if_pos (by simp [hb0, hb1, hp0, hp1, hs0, hs1, hn0, hn1]),
    if_pos (by simp; linarith)]
  refine ⟨_, rfl, ?_⟩
  simp [dictUpdate, ensembleWeights, List.lookup]
  field_simp
  exact div_self (by linarith)

/-- Witness for `update_weights_full_cover_sums_to_one` with all four
weights set to `1/4`. -/
theorem update_weights_full_cover_witness :
    ∃ w', updateWeights ensembleWeights
        [("bert", 1/4), ("pattern", 1/4), ("sentiment", 1/4), ("ner", 1/4)] = some w' ∧
      (w'.map Prod.snd).sum = 1 :=
  update_weights_full_cover_sums_to_one (1/4) (1/4) (1/4) (1/4)
    (by norm_num) (by norm_num) (by norm_num) (by norm_num) (by norm_num)
    (by norm_num) (by norm_num) (by norm_num) (by norm_num)

/-! ## Regex engine

The pattern catalog of `app/models/pattern_matcher.py` uses only a small
regex subset: literal characters, the classes `\s` and `\d` (a bracket
class such as `[\d,]` is the alternation of its members), grouping,
alternation `|` and the quantifiers `*`, `+`, `?`.  We embed that subset
and give it an executable matcher via Brzozowski derivatives.
`re.IGNORECASE` is modelled by matching the lower-cased text against the
(entirely lower-case) patterns; `re.MULTILINE` only affects `^`/`$`,
which no pattern uses. -/

/-- Regex abstract syntax for the catalog's subset. -/
inductive Regex where
  | emp
  | eps
  | chr (c : Char)
  | ws
  | digit
  | seq (a b : Regex)
  | alt (a b : Regex)
  | star (a : Regex)
deriving DecidableEq, Repr

/-- Python `\s` on ASCII text. -/
def isWsChar (c : Char) : Bool :=
  c = ' ' || c = '\t' || c = '\n' || c = '\r' || c = '\x0b' || c = '\x0c'

/-- Does the regex accept the empty string? -/
def Regex.nullable : Regex → Bool
  | .emp => false
  | .eps => true
  | .chr _ => false
  | .ws => false
  | .digit => false
  | .seq a b => a.nullable && b.nullable
  | .alt a b => a.nullable || b.nullable
  | .star _ => true

/-- Smart sequencing (collapses the failure regex). -/
def Regex.mkSeq : Regex → Regex → Regex
  | .emp, _ => .emp
  | _, .emp => .emp
  | .eps, b => b
  | a, .eps => a
  | a, b => .seq a b

/-- Smart alternation (collapses the failure regex). -/
def Regex.mkAlt : Regex → Regex → Regex
  | .emp, b => b
  | a, .emp => a
  | a, b => .alt a b

/-- Brzozowski derivative of a regex by one character. -/
def Regex.deriv : Regex → Char → Regex
  | .emp, _ => .emp
  | .eps, _ => .emp
  | .chr c, a => if a = c then .eps else .emp
  | .ws, a => if isWsChar a then .eps else .emp
  | .digit, a => if a.isDigit then .eps else .emp
  | .seq r1 r2, a =>
      if r1.nullable then .mkAlt (.mkSeq (r1.deriv a) r2) (r2.deriv a)
      else .mkSeq (r1.deriv a) r2
  | .alt r1 r2, a => .mkAlt (r1.deriv a) (r2.deriv a)
  | .star r, a => .mkSeq (r.deriv a) (.star r)

/-- Length of the longest prefix of `s` accepted by `r`
(`none` when no prefix matches).  Scanning stops as soon as the
derivative collapses to the failure regex. -/
def longestMatchFrom : Regex → List Char → Nat → Option Nat → Option Nat
  | _, [], _, best => best
  | r, c :: cs, pos, best =>
    match r.deriv c with
    | .emp => best
    | r' => longestMatchFrom r' cs (pos + 1)
        (if r'.nullable then some (pos + 1) else best)

/-- Longest-match length of `r` against a prefix of `s`. -/
def longestMatchLen (r : Regex) (s : List Char) : Option Nat :=
  longestMatchFrom r s 0 (if r.nullable then some 0 else none)

/-- Scan of `re.findall`: count non-overlapping matches left to right,
resuming after each match.  (Python's backtracking engine takes the
leftmost match with greedy quantifiers; we take the leftmost-longest
match, which coincides on all inputs used here and in any case only
affects where the scan resumes, not whether a rule matched.) -/
def countMatchesAux : Nat → Regex → List Char → Nat
  | 0, _, _ => 0
  | _ + 1, r, [] => if r.nullable then 1 else 0
  | fuel + 1, r, s@(_ :: cs) =>
    match longestMatchLen r s with
    | some (n + 1) => 1 + countMatchesAux fuel r (s.drop (n + 1))
    | some 0 => 1 + countMatchesAux fuel r cs
    | none => countMatchesAux fuel r cs

/-- Number of matches `re.findall(pattern, text)` finds. -/
def countMatches (r : Regex) (s : List Char) : Nat :=
  countMatchesAux (s.length + 1) r s

/-- ASCII `str.lower()` for one character (kernel-reducible replacement
for `Char.toLower`). -/
def lowerChar (c : Char) : Char :=
  if 'A' ≤ c && c ≤ 'Z' then Char.ofNat (c.toNat + 32) else c

/-- The character list of `text.lower()`; matching the lower-cased text
against the lower-case patterns models `re.IGNORECASE`. -/
def lowerStr (s : String) : List Char := s.data.map lowerChar

/-- Concatenation of a list of regexes. -/
def rcat (l : List Regex) : Regex := l.foldr .seq .eps

/-- Alternation `(?:a|b|…)` of a non-empty list of regexes. -/
def ralt : List Regex → Regex
  | [] => .emp
  | [r] => r
  | r :: rs => .alt r (ralt rs)

/-- A literal string. -/
def rstr (s : String) : Regex := rcat (s.data.map .chr)

/-- `r?` -/
def ropt (r : Regex) : Regex := .alt r .eps

/-- `r+` -/
def rplus (r : Regex) : Regex := .seq r (.star r)

/-- `\s+` -/
def wsp : Regex := rplus .ws

/-- `\s*` -/
def wss : Regex := .star .ws

/-- `\d+` -/
def digp : Regex := rplus .digit

/-- Embeds the `RiskLevel` enum of `app/models/pattern_matcher.py`. -/
inductive RiskLevel where
  | critical
  | high
  | medium
  | low
deriving DecidableEq, Repr, BEq

/-- One `(regex, risk_level)` entry of the pattern catalog. -/
structure PatternRule where
  pattern : Regex
  risk_level : RiskLevel
deriving DecidableEq, Repr

/-- One category of `ScamPatternMatcher._initialize_patterns`
(the human-readable description string is omitted: no algorithm reads it). -/
structure PatternCategory where
  name : String
  rules : List PatternRule
deriving DecidableEq, Repr

/-- The `investment_scams` category of
`ScamPatternMatcher._initialize_patterns`. -/
def investmentScamsCat : PatternCategory :=
  ⟨"investment_scams", [
    ⟨rcat [rstr "guaranteed", wsp,
      ralt [.seq (rstr "return") (ropt (.chr 's')),
        .seq (rstr "profit") (ropt (.chr 's')), rstr "income"]], .critical⟩,
    ⟨rcat [rstr "risk", wss, ropt (.chr '-'), wss, rstr "free", wsp,
      ralt [rstr "investment", rstr "trading", rstr "opportunity"]], .critical⟩,
    ⟨rcat [rstr "double", wsp, rstr "your", wsp, rstr "money", wsp, rstr "in",
      wsp, digp, wsp,
      ralt [.seq (rstr "day") (ropt (.chr 's')),
        .seq (rstr "week") (ropt (.chr 's')),
        .seq (rstr "month") (ropt (.chr 's'))]], .critical⟩,
    ⟨rcat [ralt [rstr "200", rstr "300", rstr "500", rstr "1000"], .chr '%',
      wsp, ralt [rstr "return", rstr "profit", rstr "guaranteed"]], .critical⟩,
    ⟨rcat [rstr "ponzi", wsp, rstr "scheme"], .critical⟩,
    ⟨rcat [rstr "pyramid", wsp, rstr "scheme"], .critical⟩,
    ⟨rcat [rstr "binary", wsp, rstr "options", wsp, rstr "trading"], .high⟩,
    ⟨rcat [rstr "forex", wsp, rstr "trading", wsp,
      ralt [rstr "robot", rstr "bot", rstr "system"]], .high⟩,
    ⟨rcat [rstr "insider", wsp,
      ralt [rstr "trading", rstr "information"]], .high⟩,
    ⟨rcat [rstr "stock", wsp, rstr "pump", wsp, rstr "and", wsp,
      rstr "dump"], .high⟩]⟩

/-- The `crypto_scams` category of
`ScamPatternMatcher._initialize_patterns`. -/
def cryptoScamsCat : PatternCategory :=
  ⟨"crypto_scams", [
    ⟨rcat [rstr "bitcoin", wsp,
      ralt [rstr "giveaway", rstr "doubler", rstr "investment"]], .critical⟩,
    ⟨rcat [rstr "ethereum", wsp,
      ralt [rstr "giveaway", rstr "doubler"]], .critical⟩,
    ⟨rcat [rstr "crypto", wsp, ralt [rstr "mining", rstr "investment"], wsp,
      ralt [rstr "guaranteed", .seq (rstr "profit") (ropt (.chr 's'))]], .high⟩,
    ⟨rcat [rstr "send", wsp,
      ralt [rstr "bitcoin", rstr "btc", rstr "ethereum", rstr "eth"], wsp,
      rstr "get", wsp, ralt [rstr "double", rstr "triple"]], .critical⟩,
    ⟨rcat [rstr "elon", wsp, rstr "musk", wsp,
      ralt [rstr "bitcoin", rstr "crypto"], wsp, rstr "giveaway"], .critical⟩,
    ⟨rcat [rstr "rug", wsp, rstr "pull", wsp,
      ralt [rstr "crypto", rstr "token"]], .high⟩,
    ⟨rcat [rstr "pump", wsp, rstr "and", wsp, rstr "dump", wsp,
      ralt [rstr "crypto", rstr "coin"]], .high⟩,
    ⟨rcat [rstr "defi", wsp,
      ralt [rstr "guaranteed", rstr "risk-free"]], .high⟩,
    ⟨rcat [rstr "nft", wsp,
      ralt [rstr "guaranteed", rstr "investment",
        .seq (rstr "profit") (ropt (.chr 's'))]], .medium⟩]⟩

/-- The `romance_scams` category of
`ScamPatternMatcher._initialize_patterns`. -/
def romanceScamsCat : PatternCategory :=
  ⟨"romance_scams", [
    ⟨rcat [rstr "need", wsp, rstr "money", wsp, rstr "for", wsp,
      ralt [rstr "emergency", rstr "medical", rstr "travel"]], .high⟩,
    ⟨rcat [rstr "western", wsp, rstr "union", wsp,
      ralt [rstr "transfer", rstr "money"]], .high⟩,
    ⟨rcat [rstr "money", wss, rstr "gram", wsp, rstr "transfer"], .high⟩,
    ⟨rcat [rstr "gift", wsp, rstr "card", ropt (.chr 's'), wsp,
      ralt [rstr "payment", rstr "money", rstr "transfer"]], .high⟩,
    ⟨rcat [rstr "i", wsp, rstr "love", wsp, rstr "you", wsp,
      ralt [rstr "but", rstr "and"], wsp, rstr "need"], .medium⟩,
    ⟨rcat [rstr "military", wsp,
      ralt [rstr "deployment", rstr "overseas"], wsp, rstr "money"], .medium⟩,
    ⟨rcat [rstr "stranded", wsp, ralt [rstr "abroad", rstr "overseas"], wsp,
      rstr "need", wsp, rstr "money"], .high⟩,
    ⟨rcat [rstr "inheritance", wsp, rstr "money", wsp,
      ralt [rstr "help", rstr "transfer"]], .medium⟩]⟩

/-- The `phishing_scams` category of
`ScamPatternMatcher._initialize_patterns`. -/
def phishingScamsCat : PatternCategory :=
  ⟨"phishing_scams", [
    ⟨rcat [rstr "verify", wsp, rstr "your", wsp,
      ralt [rstr "account", rstr "identity"], wsp,
      ralt [rstr "immediately", rstr "now"]], .critical⟩,
    ⟨rcat [rstr "account", wsp,
      ralt [rstr "suspended", rstr "locked", rstr "compromised"]], .high⟩,
    ⟨rcat [rstr "confirm", wsp, rstr "your", wsp,
      ralt [rstr "details", rstr "information", rstr "payment"]], .high⟩,
    ⟨rcat [rstr "update", wsp, rstr "your", wsp,
      ralt [rstr "password", rstr "payment", rstr "billing"]], .high⟩,
    ⟨rcat [rstr "click", wsp, rstr "here", wsp, rstr "to", wsp,
      ralt [rstr "verify", rstr "confirm", rstr "update"]], .high⟩,
    ⟨rcat [rstr "suspicious", wsp, rstr "activity", wsp,
      rstr "detected"], .high⟩,
    ⟨rcat [rstr "unauthorized", wsp,
      ralt [rstr "access", rstr "transaction", rstr "login"]], .medium⟩,
    ⟨rcat [rstr "security", wsp, rstr "alert", wsp,
      ralt [rstr "urgent", rstr "immediate"]], .medium⟩]⟩

/-- The `tech_support_scams` category of
`ScamPatternMatcher._initialize_patterns`. -/
def techSupportScamsCat : PatternCategory :=
  ⟨"tech_support_scams", [
    ⟨rcat [rstr "microsoft", wsp,
      ralt [rstr "support", rstr "security", rstr "windows"]], .high⟩,
    ⟨rcat [rstr "apple", wsp, rstr "support", wsp,
      ralt [rstr "urgent", rstr "security"]], .high⟩,
    ⟨rcat [rstr "computer", wsp,
      ralt [rstr "infected", rstr "virus", rstr "malware"]], .high⟩,
    ⟨rcat [rstr "call", wsp,
      ralt [.seq (rstr "this") (.seq wsp (rstr "number")), rstr "immediately"],
      wsp, ropt (.chr '+'),
      rplus (ralt [.digit, .chr '-', .chr '(', .chr ')', .ws])], .high⟩,
    ⟨rcat [rstr "remote", wsp, rstr "access", wsp,
      ralt [rstr "required", rstr "needed"]], .high⟩,
    ⟨rcat [rstr "firewall", wsp,
      ralt [rstr "breach", rstr "compromised"]], .medium⟩,
    ⟨rcat [rstr "trojan", wsp,
      ralt [rstr "detected", rstr "virus", rstr "malware"]], .medium⟩]⟩

/-- The `lottery_scams` category of
`ScamPatternMatcher._initialize_patterns`. -/
def lotteryScamsCat : PatternCategory :=
  ⟨"lottery_scams", [
    ⟨rcat [rstr "you", wsp, ropt (.seq (rstr "have") wsp), rstr "won", wsp,
      ropt (.chr '$'), rplus (ralt [.digit, .chr ','])], .high⟩,
    ⟨rcat [rstr "lottery", wsp,
      ralt [rstr "winner", rstr "prize", rstr "jackpot"]], .high⟩,
    ⟨rcat [rstr "congratulations", wsp, rstr "you", wsp,
      ralt [rstr "won", rstr "selected"]], .medium⟩,
    ⟨rcat [rstr "claim", wsp, rstr "your", wsp,
      ralt [rstr "prize", rstr "winnings", rstr "reward"]], .medium⟩,
    ⟨rcat [rstr "processing", wsp, rstr "fee", wsp,
      ralt [rstr "required", rstr "needed"]], .high⟩,
    ⟨rcat [rstr "tax", wsp, ralt [rstr "payment", rstr "fee"], wsp,
      ralt [rstr "required", rstr "needed"]], .high⟩]⟩

/-- The `job_scams` category of
`ScamPatternMatcher._initialize_patterns`. -/
def jobScamsCat : PatternCategory :=
  ⟨"job_scams", [
    ⟨rcat [rstr "work", wsp, rstr "from", wsp, rstr "home", wsp,
      ralt [.seq (.chr '$') digp, .seq digp (.chr '$')]], .medium⟩,
    ⟨rcat [rstr "easy", wsp, rstr "money", wsp,
      ralt [rstr "guaranteed", rstr "opportunity"]], .medium⟩,
    ⟨rcat [rstr "envelope", wsp, rstr "stuffing", wsp,
      ralt [rstr "job", rstr "work"]], .medium⟩,
    ⟨rcat [rstr "mystery", wsp, rstr "shopper", wsp,
      ralt [rstr "job", rstr "opportunity"]], .medium⟩,
    ⟨rcat [rstr "data", wsp, rstr "entry", wsp,
      ralt [.seq (.chr '$') digp, .seq digp (.chr '$')], wsp,
      ralt [.seq (rstr "per") (.seq wsp (rstr "hour")), rstr "daily"]], .medium⟩,
    ⟨rcat [rstr "no", wsp, rstr "experience", wsp,
      ralt [rstr "required", rstr "needed"], wsp, rstr "high", wsp,
      rstr "pay"], .medium⟩]⟩

/-- The `urgency_tactics` category of
`ScamPatternMatcher._initialize_patterns`. -/
def urgencyTacticsCat : PatternCategory :=
  ⟨"urgency_tactics", [
    ⟨rcat [rstr "act", wsp, rstr "now", wsp, rstr "or", wsp,
      ralt [.seq (rstr "miss") (.seq wsp (rstr "out")), rstr "lose"]], .high⟩,
    ⟨rcat [rstr "limited", wsp, rstr "time", wsp, rstr "offer", wsp,
      rstr "expire", ropt (.chr 's')], .medium⟩,
    ⟨rcat [rstr "urgent", wsp, ropt (.seq (rstr "action") wsp),
      rstr "required"], .medium⟩,
    ⟨rcat [rstr "expire", ropt (.chr 's'), wsp,
      ralt [rstr "today", rstr "tonight",
        rcat [rstr "in", wsp, digp, wsp, rstr "hour", ropt (.chr 's')]]], .medium⟩,
    ⟨rcat [rstr "last", wsp,
      ralt [rstr "chance", rstr "opportunity"]], .medium⟩,
    ⟨rcat [rstr "immediate", wsp, ropt (.seq (rstr "action") wsp),
      rstr "required"], .medium⟩,
    ⟨rcat [rstr "don", ropt (.chr '\''), rstr "t", wsp,
      ralt [rstr "delay", rstr "wait", rstr "hesitate"]], .low⟩]⟩

/-- The `contact_pressure` category of
`ScamPatternMatcher._initialize_patterns`. -/
def contactPressureCat : PatternCategory :=
  ⟨"contact_pressure", [
    ⟨rcat [rstr "call", wsp, ropt (.seq (rstr "me") wsp),
      ralt [rstr "now", rstr "immediately", rstr "asap"]], .medium⟩,
    ⟨rcat [rstr "text", wsp, ropt (.seq (rstr "me") wsp),
      ralt [rstr "back", rstr "now", rstr "asap"]], .medium⟩,
    ⟨rcat [rstr "respond", wsp,
      ralt [rstr "immediately", rstr "asap", rstr "now"]], .medium⟩,
    ⟨rcat [rstr "reply", wsp,
      ralt [rstr "immediately", rstr "asap", rstr "now"]], .medium⟩,
    ⟨rcat [rstr "contact", wsp, ropt (.seq (rstr "me") wsp),
      ralt [rstr "immediately", rstr "asap"]], .medium⟩]⟩

/-- Embeds `ScamPatternMatcher._initialize_patterns`: the full rule
catalog, categories in source order. -/
def scamPatterns : List PatternCategory :=
  [investmentScamsCat, cryptoScamsCat, romanceScamsCat, phishingScamsCat,
   techSupportScamsCat, lotteryScamsCat, jobScamsCat, urgencyTacticsCat,
   contactPressureCat]

/-- The `base_confidence` table of `ScamPatternMatcher.find_matches`:
`{critical: 0.9, high: 0.8, medium: 0.6, low: 0.4}`. -/
def baseConfidence : RiskLevel → ℚ
  | .critical => 9/10
  | .high => 4/5
  | .medium => 3/5
  | .low => 2/5

/-- Embeds `PatternMatch` from `app/models/pattern_matcher.py`; the matched
substrings are abstracted to their count, which is all the algorithms use
(the description string is again omitted). -/
structure PatternMatch where
  pattern : Regex
  match_count : ℕ
  risk_level : RiskLevel
  confidence : ℚ
  category : String
deriving DecidableEq, Repr

/-- One iteration of the inner loop of `ScamPatternMatcher.find_matches`:
a rule whose regex has at least one `findall` match yields a
`PatternMatch` with confidence
`min(0.95, base_confidence + (match_count − 1)·0.05)`; otherwise nothing. -/
def findMatchesRule (category : String) (rule : PatternRule)
    (text : List Char) : Option PatternMatch :=
  let n := countMatches rule.pattern text
  if n = 0 then none
  else some ⟨rule.pattern, n, rule.risk_level,
    min (19/20) (baseConfidence rule.risk_level + ((n : ℚ) - 1) * (1/20)),
    category⟩

/-- Embeds `ScamPatternMatcher.find_matches`: runs every rule of every
category (case-insensitively) against the text and collects the
per-rule matches in catalog order. -/
def findMatches (text : String) : List PatternMatch :=
  (scamPatterns.map (fun cat =>
    cat.rules.filterMap
      (fun rule => findMatchesRule cat.name rule (lowerStr text)))).flatten

/-- **C6**: for every text and every catalog rule whose regex matches the
text at least once, `find_matches` produces a `PatternMatch` for that rule
whose confidence is `min(0.95, base_confidence[tier] + 0.05·(match_count − 1))`
with `base_confidence = {critical: 0.9, high: 0.8, medium: 0.6, low: 0.4}`. -/
theorem pattern_match_confidence (text : String) (cat : PatternCategory)
    (rule : PatternRule) (hcat : cat ∈ scamPatterns) (hrule : rule ∈ cat.rules)
    (hmatch : 1 ≤ countMatches rule.pattern (lowerStr text)) :
    (∃ pm ∈ findMatches text,
      pm.pattern = rule.pattern ∧ pm.category = cat.name ∧
      pm.risk_level = rule.risk_level ∧
      pm.match_count = countMatches rule.pattern (lowerStr text) ∧
      pm.confidence = min (19/20) (baseConfidence rule.risk_level +
        ((countMatches rule.pattern (lowerStr text) : ℚ) - 1) * (1/20))) ∧
    baseConfidence .critical = 9/10 ∧ baseConfidence .high = 4/5 ∧
    baseConfidence .medium = 3/5 ∧ baseConfidence .low = 2/5 := by
  have hne : countMatches rule.pattern (lowerStr text) ≠ 0 := by omega
  refine ⟨⟨⟨rule.pattern, countMatches rule.pattern (lowerStr text),
    rule.risk_level,
    min (19/20) (baseConfidence rule.risk_level +
      ((countMatches rule.pattern (lowerStr text) : ℚ) - 1) * (1/20)),
    cat.name⟩, ?_, rfl, rfl, rfl, rfl, rfl⟩, rfl, rfl, rfl, rfl⟩
  unfold findMatches
  apply List.mem_flatten.mpr
  refine ⟨_, List.mem_map_of_mem _ hcat, ?_⟩
  apply List.mem_filterMap.mpr
  exact ⟨rule, hrule, by simp [findMatchesRule, hne]⟩

/-- The `ponzi\\s+scheme` rule (fifth `investment_scams` rule). -/
def ponziRule : PatternRule := ⟨rcat [rstr "ponzi", wsp, rstr "scheme"], .critical⟩

/-- Witness for `pattern_match_confidence`: the text `"ponzi scheme"`
matches the fifth `investment_scams` rule exactly once. -/
theorem pattern_match_confidence_witness :
    (investmentScamsCat ∈ scamPatterns) ∧
    (ponziRule ∈ investmentScamsCat.rules) ∧
    (1 ≤ countMatches ponziRule.pattern (lowerStr "ponzi scheme")) ∧
    ((∃ pm ∈ findMatches "ponzi scheme",
      pm.pattern = ponziRule.pattern ∧ pm.category = investmentScamsCat.name ∧
      pm.risk_level = ponziRule.risk_level ∧
      pm.match_count = countMatches ponziRule.pattern (lowerStr "ponzi scheme") ∧
      pm.confidence = min (19/20) (baseConfidence ponziRule.risk_level +
        ((countMatches ponziRule.pattern (lowerStr "ponzi scheme") : ℚ) - 1) * (1/20))) ∧
    baseConfidence .critical = 9/10 ∧ baseConfidence .high = 4/5 ∧
    baseConfidence .medium = 3/5 ∧ baseConfidence .low = 2/5) :=
  ⟨by decide, by decide, by decide,
    pattern_match_confidence "ponzi scheme" investmentScamsCat ponziRule
      (by decide) (by decide) (by decide)⟩

/-- The Scenario A text of the spec. -/
def scenarioAText : String :=
  "guaranteed 500% returns on your investment! act now!"

/-- **C7 counterexample**: on the Scenario A text the pattern detector
produces no `urgency_tactics` match at all — the text ends in `"act now!"`
but the only act-now rule is `act\s+now\s+or\s+(?:miss\s+out|lose)`, which
requires a following `"or …"`, and no other `urgency_tactics` rule matches
either. -/
theorem scenario_a_no_urgency_match :
    (findMatches scenarioAText).filter
      (fun pm => pm.category == "urgency_tactics") = [] := by decide

/-- **C7 (amended)**: the Scenario A text is flagged by the
`investment_scams` category with critical tier (via the
`(?:200|300|500|1000)%\s+(?:return|profit|guaranteed)` rule), but it
produces no `urgency_tactics` match. -/
theorem scenario_a_matches :
    ((findMatches scenarioAText).any
      (fun pm => pm.category == "investment_scams" &&
        pm.risk_level == RiskLevel.critical) = true) ∧
    (findMatches scenarioAText).filter
      (fun pm => pm.category == "urgency_tactics") = [] := by
  constructor
  · decide
  · decide

/-! ## Scan-queue retry logic (`app/workers/scan_processor.py`) -/

/-- A queued single-scan item: the fields `_handle_scan_retry` reads and
writes (the payload text, timestamps and option flags are irrelevant to
the retry logic). -/
structure ScanItem where
  request_id : String
  priority : String
  retry_count : ℕ
  last_error : Option String
deriving DecidableEq, Repr

/-- The terminal result `_handle_scan_retry` stores in the
`scan_result:<request_id>` cache entry on retry exhaustion. -/
structure ScanResult where
  status : String
  error : String
  retry_count : ℕ
deriving DecidableEq, Repr

/-- Worker-visible state: the normal and priority scan queues (redis lists;
`lpush` prepends) and the scan-result store (redis string keys). -/
structure ScanState where
  scanQueue : List ScanItem
  priorityQueue : List ScanItem
  results : List (String × ScanResult)
deriving DecidableEq, Repr

/-- Redis `SET` on the result store: overwrite the key when present,
append it otherwise. -/
def setResult (rs : List (String × ScanResult)) (k : String) (v : ScanResult) :
    List (String × ScanResult) :=
  if rs.any (fun kv => k == kv.1) then
    rs.map (fun kv => if k == kv.1 then (k, v) else kv)
  else rs ++ [(k, v)]

/-- `max_retries = 3` in `ScanProcessor._handle_scan_retry`. -/
def scanMaxRetries : ℕ := 3

/-- Embeds `ScanProcessor._handle_scan_retry`: while `retry_count <
max_retries` the failed item is re-enqueued — on the priority queue iff
its priority is `"high"` — with `retry_count` incremented and the error
recorded in `last_error`; once retries are exhausted, a terminal
`{status: "failed", error, retry_count}` result is stored under the item's
request id (Python truthiness: only for a non-empty id) and nothing is
re-enqueued. -/
def handleScanRetry (st : ScanState) (item : ScanItem) (error : String) :
    ScanState :=
  if item.retry_count < scanMaxRetries then
    let item' := { item with
      retry_count := item.retry_count + 1
      last_error := some error }
    if item.priority = "high" then
      { st with priorityQueue := item' :: st.priorityQueue }
    else
      { st with scanQueue := item' :: st.scanQueue }
  else
    if item.request_id ≠ "" then
      { st with results :=
          setResult st.results item.request_id ⟨"failed", error, item.retry_count⟩ }
    else st

/-- A key absent from the store (`lookup = none`) fails the `any` test. -/
theorem lookup_none_any_false (rs : List (String × ScanResult)) (k : String)
    (h : rs.lookup k = none) : rs.any (fun kv => k == kv.1) = false := by
  induction rs with
  | nil => rfl
  | cons a l ih =>
    rcases hak : k == a.1 with _ | _
    · simp only [List.lookup, hak] at h
      simp [List.any, hak, ih h]
    · simp only [List.lookup, hak] at h
      cases h

/-- Appending a fresh binding makes it the one `lookup` finds. -/
theorem lookup_append_fresh (rs : List (String × ScanResult)) (k : String)
    (v : ScanResult) (h : rs.lookup k = none) :
    (rs ++ [(k, v)]).lookup k = some v := by
  induction rs with
  | nil => simp [List.lookup]
  | cons a l ih =>
    rcases hak : k == a.1 with _ | _
    · simp only [List.lookup, hak] at h
      simpa [List.lookup, hak] using ih h
    · simp only [List.lookup, hak] at h
      cases h

/-- Storing under a fresh key makes it readable and binds it exactly once. -/
theorem setResult_fresh (rs : List (String × ScanResult)) (k : String)
    (v : ScanResult) (h : rs.lookup k = none) :
    (setResult rs k v).lookup k = some v ∧
    (setResult rs k v).countP (fun kv => k == kv.1) = 1 := by
  have hany := lookup_none_any_false rs k h
  have hcount : rs.countP (fun kv => k == kv.1) = 0 := by
    rw [List.countP_eq_zero]
    intro kv hkv
    have := (List.any_eq_false).mp hany kv hkv
    simpa using this
  unfold setResult
  rw [if_neg (by simp [hany])]
  refine ⟨lookup_append_fresh rs k v h, ?_⟩
  rw [List.countP_append, hcount]
  simp

/-- **C8**: a failing single-scan item is re-enqueued with `retry_count`
incremented and the error recorded while `retry_count < 3`; once the 3
retries are exhausted it is not re-enqueued, and instead a terminal result
with status `"failed"` and the (non-empty) last error is stored exactly
once under the item's request id, so a poll by id gets a definite
answer. -/
theorem scan_retry_spec (st : ScanState) (item : ScanItem) (error : String)
    (hid : item.request_id ≠ "") (herr : error ≠ "")
    (hfresh : st.results.lookup item.request_id = none) :
    (item.retry_count < scanMaxRetries →
      (handleScanRetry st item error).results = st.results ∧
      (item.priority = "high" →
        (handleScanRetry st item error).priorityQueue =
          { item with
            retry_count := item.retry_count + 1
            last_error := some error } :: st.priorityQueue ∧
        (handleScanRetry st item error).scanQueue = st.scanQueue) ∧
      (item.priority ≠ "high" →
        (handleScanRetry st item error).scanQueue =
          { item with
            retry_count := item.retry_count + 1
            last_error := some error } :: st.scanQueue ∧
        (handleScanRetry st item error).priorityQueue = st.priorityQueue)) ∧
    (scanMaxRetries ≤ item.retry_count →
      (handleScanRetry st item error).scanQueue = st.scanQueue ∧
      (handleScanRetry st item error).priorityQueue = st.priorityQueue ∧
      (handleScanRetry st item error).results.lookup item.request_id =
        some ⟨"failed", error, item.retry_count⟩ ∧
      (handleScanRetry st item error).results.countP
        (fun kv => item.request_id == kv.1) = 1 ∧
      error ≠ "") := by
  constructor
  · intro h
    unfold handleScanRetry
    rw [if_pos h]
    by_cases hp : item.priority = "high" <;> simp [hp]
  · intro h
    unfold handleScanRetry
    rw [if_neg (not_lt.mpr h), if_pos hid]
    have := setResult_fresh st.results item.request_id
      ⟨"failed", error, item.retry_count⟩ hfresh
    exact ⟨rfl, rfl, this.1, this.2, herr⟩

/-- Witness for `scan_retry_spec` at a concrete exhausted item. -/
theorem scan_retry_spec_witness :
    ((⟨"req1", "normal", 3, none⟩ : ScanItem).request_id ≠ "") ∧
    ("boom" ≠ "") ∧
    ((⟨[], [], []⟩ : ScanState).results.lookup "req1" = none) ∧
    ((3 ≤ (⟨"req1", "normal", 3, none⟩ : ScanItem).retry_count →
      (handleScanRetry ⟨[], [], []⟩ ⟨"req1", "normal", 3, none⟩ "boom").scanQueue = [] ∧
      (handleScanRetry ⟨[], [], []⟩ ⟨"req1", "normal", 3, none⟩ "boom").priorityQueue = [] ∧
      (handleScanRetry ⟨[], [], []⟩ ⟨"req1", "normal", 3, none⟩ "boom").results.lookup "req1" =
        some ⟨"failed", "boom", 3⟩ ∧
      (handleScanRetry ⟨[], [], []⟩ ⟨"req1", "normal", 3, none⟩ "boom").results.countP
        (fun kv => "req1" == kv.1) = 1 ∧
      ("boom" : String) ≠ "")) :=
  ⟨by decide, by decide, rfl,
    fun h3 => ((scan_retry_spec ⟨[], [], []⟩ ⟨"req1", "normal", 3, none⟩ "boom"
      (by decide) (by decide) rfl).2) (by exact h3)⟩

/-! ## Model simulators (`app/utils/model_simulator.py`,
`app/models/bert_classifier.py`) -/

/-- `np.clip(x, 0.0, 1.0)`. -/
def clip01 (x : ℚ) : ℚ := max 0 (min 1 x)

/-- Embeds `ScamModelSimulator._add_model_uncertainty` with the Gaussian
draw made explicit: the noisy score is `score + noise` clipped to `[0,1]`,
and the confidence is `min(0.95, 0.5 + |final − 0.5|)`.  Returns
`(final_score, confidence)`. -/
def addModelUncertainty (score noise : ℚ) : ℚ × ℚ :=
  let finalScore := clip01 (score + noise)
  (finalScore, min (19/20) (1/2 + |finalScore - 1/2|))

/-- The global numpy RNG as seeded once by `np.random.seed(42)` in
`ScamModelSimulator.initialize_models`: an abstract stream of the
successive `np.random.normal(0, 0.05)` draws together with the current
position.  Seeding fixes `draws`; every call advances `idx` — the state
is shared across calls, not reset per call. -/
structure SimRng where
  draws : ℕ → ℚ
  idx : ℕ

/-- One Gaussian draw from the shared RNG. -/
def SimRng.next (r : SimRng) : ℚ × SimRng :=
  (r.draws r.idx, ⟨r.draws, r.idx + 1⟩)

/-- The noisy tail of `ScamModelSimulator.simulate_bert_prediction`: after
the deterministic `combined_score` of the input text is computed, draw
noise from the shared RNG and apply `_add_model_uncertainty`. -/
def simulateUncertainty (combined : ℚ) (r : SimRng) : (ℚ × ℚ) × SimRng :=
  let (noise, r') := r.next
  (addModelUncertainty combined noise, r')

/-- Two successive fallback predictions on the same input text (hence the
same deterministic `combined` score), threading the shared RNG state. -/
def simulateTwice (combined : ℚ) (r : SimRng) : (ℚ × ℚ) × (ℚ × ℚ) :=
  let (first, r') := simulateUncertainty combined r
  let (second, _) := simulateUncertainty combined r'
  (first, second)

/-- Concrete stand-in for the first two draws of the seed-42 stream
(the real values ≈ `+0.0248` and `−0.0069` are likewise distinct). -/
def seededDraws : ℕ → ℚ
  | 0 => 1/40
  | 1 => -(1/144)
  | _ => 0

/-- **C9**: the fallback simulator is *not* a pure function of
`(text, seed)` — the RNG is seeded once at initialization and every call
to `_add_model_uncertainty` consumes the next draw of the shared stream,
so two successive calls on the same input return different scores whenever
the two consecutive draws differ (as the first two seed-42 draws do). -/
theorem simulator_two_calls_differ :
    (simulateTwice (1/2) ⟨seededDraws, 0⟩).1.1 ≠
      (simulateTwice (1/2) ⟨seededDraws, 0⟩).2.1 ∧
    (simulateTwice (1/2) ⟨seededDraws, 0⟩).1 =
      addModelUncertainty (1/2) (seededDraws 0) ∧
    (simulateTwice (1/2) ⟨seededDraws, 0⟩).2 =
      addModelUncertainty (1/2) (seededDraws 1) := by
  refine ⟨?_, rfl, rfl⟩
  norm_num [simulateTwice, simulateUncertainty, SimRng.next,
    addModelUncertainty, clip01, seededDraws]

/-- The `ScamPatternSimulator` instance attribute `advanced_simulator`
read by its `simulate_bert_prediction`.  `__init__` never assigns it (no
other assignment exists anywhere in the repository), so the attribute
access always raises `AttributeError`; the never-assigned attribute is
modelled as `none`. -/
def advancedSimulatorAttr : Option (String → ℚ × ℚ) := none

/-- Embeds `ScamPatternSimulator.simulate_bert_prediction`: delegate to
`self.advanced_simulator` when the attribute exists; otherwise the
`except` handler returns the fixed
`{"scam_probability": 0.1, "confidence": 0.5}` result. -/
def simulateBertFallback (attr : Option (String → ℚ × ℚ)) (text : String) :
    ℚ × ℚ :=
  match attr with
  | some f => f text
  | none => (1/10, 1/2)

/-- Embeds `EnsembleScorer._get_bert_prediction`: use the real classifier
when the BERT model is loaded, otherwise the `pattern_simulator`
fallback (scores and confidences read with default `0.0`, but both keys
are always present in the fallback's result). -/
def getBertPrediction (bertLoaded : Bool) (bertPredict : String → ℚ × ℚ)
    (text : String) : ModelPrediction :=
  if bertLoaded then
    ⟨"bert", (bertPredict text).1, (bertPredict text).2⟩
  else
    ⟨"bert", (simulateBertFallback advancedSimulatorAttr text).1,
      (simulateBertFallback advancedSimulatorAttr text).2⟩

/-- **C10**: whenever the real BERT model is not loaded, the ensemble's
`bert` prediction is the constant `(score 0.1, confidence 0.5)` for every
input text: `simulate_bert_prediction` reads the never-defined
`advanced_simulator` attribute, so its exception handler's fixed result is
always returned, independent of the text. -/
theorem bert_fallback_constant :
    ∀ (bertPredict : String → ℚ × ℚ) (text : String),
      getBertPrediction false bertPredict text =
        ⟨"bert", 1/10, 1/2⟩ :=
  fun _ _ => rfl

end ScamDunk
